import Mathlib

/-!
Verification of the invenio-circulation loan transition configuration.

The transition table, policy bundle and state-classification lists are
embedded from `invenio_circulation/config.py`.  The transition engine
(resolution of a trigger against the table, guards and effects of the
individual transition behavior classes) is not part of the sources at hand,
so it is modelled from the specification (sections 4.2, 4.1 and 6 of the
spec) and marked as such below.
-/

namespace InvenioCirculation

/-- A loan record, with the fields named in the data model: `state`, the
three entity references, the timestamps, the location references and the
extension counter. -/
structure Loan where
  state : String
  item_pid : String := ""
  patron_pid : String := ""
  document_pid : String := ""
  transaction_date : Option Nat := none
  start_date : Option Nat := none
  end_date : Option Nat := none
  transaction_location_pid : Option String := none
  pickup_location_pid : Option String := none
  item_location_pid : Option String := none
  transaction_user_pid : Option String := none
  extension_count : Nat := 0
deriving DecidableEq, Repr

/-- One row of a state's candidate list in `CIRCULATION_LOAN_TRANSITIONS`:
the destination state, the optional trigger tag, and the name of the
optional transition behavior class attached to the edge. -/
structure Edge where
  dest : String
  trigger : Option String := none
  transition : Option String := none
deriving DecidableEq, Repr

/-- The default transition table, embedded row by row from
`CIRCULATION_LOAN_TRANSITIONS` in `config.py`, keeping the order of the
dict entries and of each candidate list. -/
def CIRCULATION_LOAN_TRANSITIONS : List (String × List Edge) :=
  [ ("CREATED",
      [ { dest := "PENDING", trigger := some "request",
          transition := some "CreatedToPending" },
        { dest := "ITEM_ON_LOAN", trigger := some "checkout",
          transition := some "ToItemOnLoan" } ]),
    ("PENDING",
      [ { dest := "ITEM_AT_DESK",
          transition := some "PendingToItemAtDesk" },
        { dest := "ITEM_IN_TRANSIT_FOR_PICKUP",
          transition := some "PendingToItemInTransitPickup" },
        { dest := "ITEM_ON_LOAN", trigger := some "checkout",
          transition := some "ToItemOnLoan" },
        { dest := "CANCELLED", trigger := some "cancel",
          transition := some "ToCancelled" } ]),
    ("ITEM_AT_DESK",
      [ { dest := "ITEM_ON_LOAN",
          transition := some "ItemAtDeskToItemOnLoan" },
        { dest := "CANCELLED", trigger := some "cancel",
          transition := some "ToCancelled" } ]),
    ("ITEM_IN_TRANSIT_FOR_PICKUP",
      [ { dest := "ITEM_AT_DESK" },
        { dest := "CANCELLED", trigger := some "cancel",
          transition := some "ToCancelled" } ]),
    ("ITEM_ON_LOAN",
      [ { dest := "ITEM_RETURNED",
          transition := some "ItemOnLoanToItemReturned" },
        { dest := "ITEM_IN_TRANSIT_TO_HOUSE",
          transition := some "ItemOnLoanToItemInTransitHouse" },
        { dest := "ITEM_ON_LOAN", trigger := some "extend",
          transition := some "ItemOnLoanToItemOnLoan" },
        { dest := "CANCELLED", trigger := some "cancel",
          transition := some "ToCancelled" } ]),
    ("ITEM_IN_TRANSIT_TO_HOUSE",
      [ { dest := "ITEM_RETURNED",
          transition := some "ItemInTransitHouseToItemReturned" },
        { dest := "CANCELLED", trigger := some "cancel",
          transition := some "ToCancelled" } ]),
    ("ITEM_RETURNED", []),
    ("CANCELLED", []) ]

/-- `CIRCULATION_LOAN_INITIAL_STATE` from `config.py`. -/
def CIRCULATION_LOAN_INITIAL_STATE : String := "CREATED"

/-- The fixed state enumeration: the keys of the default transition table. -/
def loanStates : List String := CIRCULATION_LOAN_TRANSITIONS.map Prod.fst

/-- `CIRCULATION_STATES_LOAN_REQUEST` from `config.py`. -/
def CIRCULATION_STATES_LOAN_REQUEST : List String := ["PENDING"]

/-- `CIRCULATION_STATES_LOAN_ACTIVE` from `config.py`. -/
def CIRCULATION_STATES_LOAN_ACTIVE : List String :=
  ["ITEM_AT_DESK", "ITEM_ON_LOAN", "ITEM_IN_TRANSIT_FOR_PICKUP",
   "ITEM_IN_TRANSIT_TO_HOUSE"]

/-- `CIRCULATION_STATES_LOAN_COMPLETED` from `config.py`. -/
def CIRCULATION_STATES_LOAN_COMPLETED : List String := ["ITEM_RETURNED"]

/-- `CIRCULATION_STATES_LOAN_CANCELLED` from `config.py`. -/
def CIRCULATION_STATES_LOAN_CANCELLED : List String := ["CANCELLED"]

/-- All states named by the four classification lists, in order. -/
def classificationStates : List String :=
  CIRCULATION_STATES_LOAN_REQUEST ++ CIRCULATION_STATES_LOAN_ACTIVE ++
  CIRCULATION_STATES_LOAN_COMPLETED ++ CIRCULATION_STATES_LOAN_CANCELLED

/-- A value of the policy bundle: either a named policy function or a plain
boolean flag. -/
inductive PolicyValue
  | func (name : String)
  | bool (b : Bool)
deriving DecidableEq, Repr

/-- `CIRCULATION_POLICIES` from `config.py`: the nested dict of policy
options, embedded as an ordered association list of sections. -/
def CIRCULATION_POLICIES : List (String × List (String × PolicyValue)) :=
  [ ("checkout",
      [ ("duration_default", .func "get_default_loan_duration"),
        ("duration_validate", .func "is_loan_duration_valid"),
        ("item_can_circulate", .func "item_can_circulate") ]),
    ("extension",
      [ ("from_end_date", .bool true),
        ("duration_default", .func "get_default_extension_duration"),
        ("max_count", .func "get_default_extension_max_count") ]),
    ("request",
      [ ("can_be_requested", .func "can_be_requested") ]) ]

/-- The dotted option names supplied by the default policy bundle, in dict
order. -/
def policyKeys : List String :=
  CIRCULATION_POLICIES.flatMap
    (fun p => p.2.map (fun kv => p.1 ++ "." ++ kv.1))

/-- Look up one option of the policy bundle by section and key. -/
def lookupPolicy (section_ key : String) : Option PolicyValue :=
  match CIRCULATION_POLICIES.find? (fun p => p.1 == section_) with
  | some p => (p.2.find? (fun kv => kv.1 == key)).map Prod.snd
  | none => none

/-- The recognized options of the policy contract, as enumerated by the
spec's Policy Provider section. -/
def recognizedPolicyOptions : List String :=
  [ "checkout.duration_default", "checkout.duration_validate",
    "checkout.item_can_circulate", "extension.from_end_date",
    "extension.duration_default", "extension.max_count",
    "request.can_be_requested" ]

/-- Modelled from the spec: the host-injected validators and policy
callbacks consumed by the guards and effects of the transition behavior
classes, which are not among the sources at hand.  Each field is one of the
boundary contracts of the spec (existence checks, availability, location
predicates, checkout and extension policies). -/
structure Ctx where
  itemExists : String → Bool
  patronExists : String → Bool
  documentExists : String → Bool
  itemCanCirculate : String → Bool
  canBeRequested : String → String → Bool
  locationsConsistent : Loan → Bool
  itemAvailableForCheckout : Loan → Bool
  noEarlierPendingRequest : Loan → Bool
  durationOk : Loan → Bool
  itemAtPickupLocation : Loan → Bool
  itemNeedsTransitForPickup : Loan → Bool
  itemAtOwningLocation : Loan → Bool
  itemNeedsTransitHome : Loan → Bool
  checkoutStart : Loan → Nat
  checkoutEnd : Loan → Nat
  transactionDate : Nat
  transactionLocation : String
  pickupLocation : String
  itemLocationOf : String → String
  extensionFromEndDate : Bool
  extensionNewEndDate : Loan → Nat
  extensionMaxCount : Loan → Nat
  extensionDurationOk : Loan → Bool

/-- Modelled from the spec: the guard predicate of each transition behavior
class named in the table, following the guard column of the spec's default
table; an edge without a behavior class uses the minimal default guard that
always passes. -/
def guardOf (ctx : Ctx) (behavior : Option String) (l : Loan) : Bool :=
  match behavior with
  | none => true
  | some "CreatedToPending" =>
      ctx.itemExists l.item_pid && ctx.itemCanCirculate l.item_pid &&
      ctx.patronExists l.patron_pid && ctx.documentExists l.document_pid &&
      ctx.canBeRequested l.item_pid l.patron_pid && ctx.locationsConsistent l
  | some "ToItemOnLoan" =>
      ctx.itemExists l.item_pid && ctx.patronExists l.patron_pid &&
      ctx.documentExists l.document_pid && ctx.itemAvailableForCheckout l &&
      ctx.durationOk l && ctx.noEarlierPendingRequest l
  | some "PendingToItemAtDesk" => ctx.itemAtPickupLocation l
  | some "PendingToItemInTransitPickup" => ctx.itemNeedsTransitForPickup l
  | some "ToCancelled" => true
  | some "ItemAtDeskToItemOnLoan" =>
      ctx.itemAvailableForCheckout l && ctx.durationOk l
  | some "ItemOnLoanToItemReturned" => ctx.itemAtOwningLocation l
  | some "ItemOnLoanToItemInTransitHouse" => ctx.itemNeedsTransitHome l
  | some "ItemOnLoanToItemOnLoan" =>
      decide (l.extension_count < ctx.extensionMaxCount l) &&
      ctx.extensionDurationOk l && ctx.noEarlierPendingRequest l
  | some "ItemInTransitHouseToItemReturned" => ctx.itemAtOwningLocation l
  | some _ => false

/-- Modelled from the spec: the effect of each transition behavior class on
the non-state fields of the loan, following the effect column of the spec's
default table; an edge without a behavior class uses the minimal default
effect that mutates nothing. -/
def effectOf (ctx : Ctx) (behavior : Option String) (l : Loan) : Loan :=
  match behavior with
  | none => l
  | some "CreatedToPending" =>
      { l with transaction_date := some ctx.transactionDate,
               pickup_location_pid := some ctx.pickupLocation }
  | some "ToItemOnLoan" =>
      { l with start_date := some (ctx.checkoutStart l),
               end_date := some (ctx.checkoutEnd l),
               transaction_location_pid := some ctx.transactionLocation }
  | some "PendingToItemAtDesk" =>
      { l with item_location_pid := some (ctx.itemLocationOf l.item_pid) }
  | some "PendingToItemInTransitPickup" =>
      { l with transaction_date := some ctx.transactionDate }
  | some "ToCancelled" => l
  | some "ItemAtDeskToItemOnLoan" =>
      { l with start_date := some (ctx.checkoutStart l),
               end_date := some (ctx.checkoutEnd l) }
  | some "ItemOnLoanToItemReturned" =>
      { l with item_location_pid := some (ctx.itemLocationOf l.item_pid) }
  | some "ItemOnLoanToItemInTransitHouse" =>
      { l with transaction_date := some ctx.transactionDate }
  | some "ItemOnLoanToItemOnLoan" =>
      { l with extension_count := l.extension_count + 1,
               end_date := some (ctx.extensionNewEndDate l) }
  | some _ => l

/-- The error taxonomy of a transition attempt. -/
inductive TransitionError
  | invalidTransition
  | noAutomaticTransition
  | transitionConditionsNotMet
deriving DecidableEq, Repr

/-- The candidate list of a state in the default table; a state missing
from the table has no candidates. -/
def edgesOf (state : String) : List Edge :=
  match CIRCULATION_LOAN_TRANSITIONS.find? (fun p => p.1 == state) with
  | some p => p.2
  | none => []

/-- Step 2/3 of the resolution algorithm: with a trigger, keep only the
edges carrying that trigger; without one, keep only the automatic edges. -/
def filterByTrigger (edges : List Edge) (t : Option String) : List Edge :=
  match t with
  | some tr => edges.filter (fun e => e.trigger == some tr)
  | none => edges.filter (fun e => e.trigger == none)

/-- The error raised when the filtered candidate list is empty: with a
trigger the trigger is not defined for the state, without one the state is
a stable rest point. -/
def noEdgeError (t : Option String) : TransitionError :=
  match t with
  | some _ => .invalidTransition
  | none => .noAutomaticTransition

/-- The first candidate whose guard passes, in table order. -/
def firstPassing (ctx : Ctx) (l : Loan) : List Edge → Option Edge
  | [] => none
  | e :: rest =>
      if guardOf ctx e.transition l then some e
      else firstPassing ctx l rest

/-- Modelled from the spec: the resolution algorithm of the loan engine,
which is not among the sources at hand.  Candidates of the current state
are filtered by the optional trigger; an empty filtered list fails with
`InvalidTransition` or `NoAutomaticTransition`; otherwise guards run in
table order and the first passing edge's effect is applied and its
destination committed; total guard exhaustion fails with
`TransitionConditionsNotMet`.  A failing attempt returns only an error, so
it leaves the loan untouched. -/
def resolve (ctx : Ctx) (l : Loan) (t : Option String) :
    Except TransitionError Loan :=
  let cands := filterByTrigger (edgesOf l.state) t
  if cands.isEmpty then .error (noEdgeError t)
  else
    match firstPassing ctx l cands with
    | some e => .ok { effectOf ctx e.transition l with state := e.dest }
    | none => .error .transitionConditionsNotMet

/-- Modelled from the spec: `AvailableTriggers` returns the trigger names
of the current state's edges whose guards pass. -/
def availableTriggers (ctx : Ctx) (l : Loan) : List String :=
  ((edgesOf l.state).filter
      (fun e => e.trigger.isSome && guardOf ctx e.transition l)).filterMap
    (fun e => e.trigger)

/-- All (source state, edge) pairs of the table carrying a given trigger. -/
def edgesWithTrigger (t : String) : List (String × Edge) :=
  CIRCULATION_LOAN_TRANSITIONS.flatMap
    (fun p => (p.2.filter (fun e => e.trigger == some t)).map
      (fun e => (p.1, e)))

/-- All (source state, edge) pairs of the table without a transition
behavior class. -/
def edgesWithoutBehavior : List (String × Edge) :=
  CIRCULATION_LOAN_TRANSITIONS.flatMap
    (fun p => (p.2.filter (fun e => e.transition.isNone)).map
      (fun e => (p.1, e)))

/-- Checks that in a candidate list every automatic edge precedes every
trigger-tagged edge. -/
def autoBeforeTriggered : List Edge → Bool
  | [] => true
  | e :: rest =>
      if e.trigger.isNone then autoBeforeTriggered rest
      else rest.all (fun e2 => e2.trigger.isSome)

/-- A concrete validator/policy environment in which every predicate passes
and up to three extensions are allowed, used to exercise the engine on
concrete loans. -/
def ctx0 : Ctx :=
  { itemExists := fun _ => true
    patronExists := fun _ => true
    documentExists := fun _ => true
    itemCanCirculate := fun _ => true
    canBeRequested := fun _ _ => true
    locationsConsistent := fun _ => true
    itemAvailableForCheckout := fun _ => true
    noEarlierPendingRequest := fun _ => true
    durationOk := fun _ => true
    itemAtPickupLocation := fun _ => true
    itemNeedsTransitForPickup := fun _ => true
    itemAtOwningLocation := fun _ => true
    itemNeedsTransitHome := fun _ => true
    checkoutStart := fun _ => 1
    checkoutEnd := fun _ => 15
    transactionDate := 5
    transactionLocation := "loc-tx"
    pickupLocation := "loc-pickup"
    itemLocationOf := fun _ => "loc-item"
    extensionFromEndDate := true
    extensionNewEndDate := fun _ => 22
    extensionMaxCount := fun _ => 3
    extensionDurationOk := fun _ => true }

/-- The environment `ctx0` with the extension limit set to zero, so that
any extension attempt is over the limit. -/
def ctxZero : Ctx := { ctx0 with extensionMaxCount := fun _ => 0 }

/-- A freshly created loan. -/
def loanCreated : Loan :=
  { state := "CREATED", item_pid := "item", patron_pid := "patron",
    document_pid := "doc" }

/-- The sample loan in state `PENDING`. -/
def loanPending : Loan := { loanCreated with state := "PENDING" }

/-- The sample loan in state `ITEM_ON_LOAN`. -/
def loanOnLoan : Loan := { loanCreated with state := "ITEM_ON_LOAN" }

/-- The sample loan in state `ITEM_IN_TRANSIT_FOR_PICKUP`. -/
def loanInTransitPickup : Loan :=
  { loanCreated with state := "ITEM_IN_TRANSIT_FOR_PICKUP" }

/-- The sample loan in state `CANCELLED`. -/
def loanCancelled : Loan := { loanCreated with state := "CANCELLED" }

example : edgesOf "PENDING" =
    [ { dest := "ITEM_AT_DESK", transition := some "PendingToItemAtDesk" },
      { dest := "ITEM_IN_TRANSIT_FOR_PICKUP",
        transition := some "PendingToItemInTransitPickup" },
      { dest := "ITEM_ON_LOAN", trigger := some "checkout",
        transition := some "ToItemOnLoan" },
      { dest := "CANCELLED", trigger := some "cancel",
        transition := some "ToCancelled" } ] := rfl

example : resolve ctx0 loanCreated (some "request") =
    .ok { loanCreated with
          state := "PENDING",
          transaction_date := some 5,
          pickup_location_pid := some "loc-pickup" } := rfl

example : resolve ctx0 loanCreated none =
    .error .noAutomaticTransition := rfl

example : resolve ctx0 loanCancelled (some "cancel") =
    .error .invalidTransition := rfl

example : resolve ctx0 loanOnLoan (some "extend") =
    .ok { loanOnLoan with
          state := "ITEM_ON_LOAN",
          extension_count := 1,
          end_date := some 22 } := rfl

example : resolve ctxZero loanOnLoan (some "extend") =
    .error .transitionConditionsNotMet := rfl

example : resolve ctx0 loanPending none =
    .ok { loanPending with
          state := "ITEM_AT_DESK",
          item_location_pid := some "loc-item" } := rfl

example : resolve ctx0 loanInTransitPickup none =
    .ok { loanInTransitPickup with state := "ITEM_AT_DESK" } := rfl

example : availableTriggers ctx0 loanCancelled = [] := rfl

example : edgesWithTrigger "extend" =
    [ ("ITEM_ON_LOAN",
       { dest := "ITEM_ON_LOAN", trigger := some "extend",
         transition := some "ItemOnLoanToItemOnLoan" }) ] := rfl

example : edgesWithoutBehavior =
    [ ("ITEM_IN_TRANSIT_FOR_PICKUP", { dest := "ITEM_AT_DESK" }) ] := rfl

example : policyKeys = recognizedPolicyOptions := rfl

example : lookupPolicy "extension" "from_end_date" =
    some (.bool true) := rfl

example : CIRCULATION_LOAN_TRANSITIONS.all
    (fun p => autoBeforeTriggered p.2) = true := rfl

example : CIRCULATION_LOAN_TRANSITIONS.all
    (fun p => p.2.all (fun e => loanStates.contains e.dest)) = true := rfl

theorem firstPassing_mem {ctx : Ctx} {l : Loan} {es : List Edge} {e : Edge}
    (h : firstPassing ctx l es = some e) : e ∈ es := by
  induction es with
  | nil => simp [firstPassing] at h
  | cons a rest ih =>
      simp only [firstPassing] at h
      by_cases hg : guardOf ctx a.transition l = true
      · rw [if_pos hg] at h
        cases h
        exact List.mem_cons_self _ _
      · rw [if_neg hg] at h
        exact List.mem_cons_of_mem _ (ih h)

theorem firstPassing_guard {ctx : Ctx} {l : Loan} {es : List Edge} {e : Edge}
    (h : firstPassing ctx l es = some e) :
    guardOf ctx e.transition l = true := by
  induction es with
  | nil => simp [firstPassing] at h
  | cons a rest ih =>
      simp only [firstPassing] at h
      by_cases hg : guardOf ctx a.transition l = true
      · rw [if_pos hg] at h
        cases h
        exact hg
      · rw [if_neg hg] at h
        exact ih h

theorem resolve_ok_elim {ctx : Ctx} {l l' : Loan} {t : Option String}
    (h : resolve ctx l t = .ok l') :
    ∃ e, e ∈ filterByTrigger (edgesOf l.state) t ∧
      guardOf ctx e.transition l = true ∧
      l' = { effectOf ctx e.transition l with state := e.dest } := by
  simp only [resolve] at h
  split at h
  · exact absurd h (by simp)
  · split at h
    next e heq =>
      injection h with h'
      exact ⟨e, firstPassing_mem heq, firstPassing_guard heq, h'.symm⟩
    next heq => exact absurd h (by simp)

theorem resolve_no_edges {ctx : Ctx} {l : Loan} {t : Option String}
    (h : edgesOf l.state = []) :
    resolve ctx l t = .error (noEdgeError t) := by
  cases t <;> simp [resolve, filterByTrigger, h]

theorem resolve_head_pass {ctx : Ctx} {l : Loan} {t : Option String}
    {e : Edge} {rest : List Edge}
    (hc : filterByTrigger (edgesOf l.state) t = e :: rest)
    (hg : guardOf ctx e.transition l = true) :
    resolve ctx l t = .ok { effectOf ctx e.transition l with state := e.dest } := by
  simp only [resolve, hc]
  simp [firstPassing, hg]

theorem resolve_none_pass {ctx : Ctx} {l : Loan} {t : Option String}
    (hne : ¬(filterByTrigger (edgesOf l.state) t).isEmpty = true)
    (hfp : firstPassing ctx l (filterByTrigger (edgesOf l.state) t) = none) :
    resolve ctx l t = .error .transitionConditionsNotMet := by
  simp only [resolve, hfp]
  rw [if_neg hne]

theorem mem_of_mem_filterByTrigger {es : List Edge} {t : Option String}
    {e : Edge} (h : e ∈ filterByTrigger es t) : e ∈ es := by
  cases t <;> exact List.mem_of_mem_filter h

theorem trigger_of_mem_filterByTrigger {es : List Edge} {tr : String}
    {e : Edge} (h : e ∈ filterByTrigger es (some tr)) :
    e.trigger = some tr := by
  have := List.of_mem_filter h
  simpa using this

theorem mem_edgesOf {e : Edge} {s : String} (h : e ∈ edgesOf s) :
    ∃ p, p ∈ CIRCULATION_LOAN_TRANSITIONS ∧ e ∈ p.2 := by
  unfold edgesOf at h
  cases hfind : CIRCULATION_LOAN_TRANSITIONS.find? (fun p => p.1 == s) with
  | none => rw [hfind] at h; simp at h
  | some p =>
      rw [hfind] at h
      exact ⟨p, List.mem_of_find?_eq_some hfind, h⟩

theorem table_dest_closed : CIRCULATION_LOAN_TRANSITIONS.all
    (fun p => p.2.all (fun e => loanStates.contains e.dest)) = true := rfl

theorem dest_mem_loanStates {s : String} {e : Edge} (h : e ∈ edgesOf s) :
    e.dest ∈ loanStates := by
  obtain ⟨p, hp, he⟩ := mem_edgesOf h
  have h1 := List.all_eq_true.mp (List.all_eq_true.mp table_dest_closed p hp) e he
  exact List.mem_of_elem_eq_true h1

theorem resolve_state_closed {ctx : Ctx} {l l' : Loan} {t : Option String}
    (h : resolve ctx l t = .ok l') : l'.state ∈ loanStates := by
  obtain ⟨e, hmem, _, hl'⟩ := resolve_ok_elim h
  have he : e ∈ edgesOf l.state := mem_of_mem_filterByTrigger hmem
  rw [hl']
  simpa using dest_mem_loanStates he

/-- C1: the state set is the fixed eight-state enumeration, the initial
state belongs to it and every committed destination stays inside it; the
terminal states `ITEM_RETURNED` and `CANCELLED` have no outgoing edges in
the default table, so resolving any trigger (or none) on a loan in a
terminal state fails, and a failing resolution returns only an error, never
a mutated loan. -/
theorem C1_state_enum_and_terminal_stuck :
    loanStates = ["CREATED", "PENDING", "ITEM_AT_DESK",
      "ITEM_IN_TRANSIT_FOR_PICKUP", "ITEM_ON_LOAN",
      "ITEM_IN_TRANSIT_TO_HOUSE", "ITEM_RETURNED", "CANCELLED"] ∧
    CIRCULATION_LOAN_INITIAL_STATE ∈ loanStates ∧
    edgesOf "ITEM_RETURNED" = [] ∧ edgesOf "CANCELLED" = [] ∧
    (∀ (ctx : Ctx) (l l' : Loan) (t : Option String),
      resolve ctx l t = .ok l' → l'.state ∈ loanStates) ∧
    (∀ (ctx : Ctx) (l : Loan) (t : Option String),
      l.state = "ITEM_RETURNED" ∨ l.state = "CANCELLED" →
      resolve ctx l t = .error (noEdgeError t)) := by
  refine ⟨rfl, by decide, rfl, rfl, ?_, ?_⟩
  · intro ctx l l' t h
    exact resolve_state_closed h
  · intro ctx l t h
    apply resolve_no_edges
    rcases h with h | h <;> rw [h] <;> rfl

/-- C1 witness: a cancelled loan rejects a `checkout` trigger. -/
theorem C1_terminal_stuck_witness :
    resolve ctx0 loanCancelled (some "checkout") =
      .error TransitionError.invalidTransition :=
  C1_state_enum_and_terminal_stuck.2.2.2.2.2 ctx0 loanCancelled
    (some "checkout") (Or.inr rfl)

/-- C4: state `CREATED` has exactly the two trigger-tagged edges `request`
and `checkout` and no automatic edge, so resolving a loan in `CREATED`
without a trigger fails with `NoAutomaticTransition` (and, the engine being
failure-pure, returns no mutated loan). -/
theorem C4_created_no_automatic :
    edgesOf "CREATED" =
      [ { dest := "PENDING", trigger := some "request",
          transition := some "CreatedToPending" },
        { dest := "ITEM_ON_LOAN", trigger := some "checkout",
          transition := some "ToItemOnLoan" } ] ∧
    (edgesOf "CREATED").all (fun e => e.trigger.isSome) = true ∧
    ∀ (ctx : Ctx) (l : Loan), l.state = "CREATED" →
      resolve ctx l none = .error TransitionError.noAutomaticTransition := by
  refine ⟨rfl, rfl, ?_⟩
  intro ctx l h
  have hc : filterByTrigger (edgesOf l.state) none = [] := by rw [h]; rfl
  simp only [resolve, hc]
  rfl

/-- C4 witness: the sample freshly created loan at rest. -/
theorem C4_created_no_automatic_witness :
    resolve ctx0 loanCreated none =
      .error TransitionError.noAutomaticTransition :=
  C4_created_no_automatic.2.2 ctx0 loanCreated rfl

/-- C6 counterexample: exactly one edge of the default table lacks a
transition behavior object, namely `ITEM_IN_TRANSIT_FOR_PICKUP ->
ITEM_AT_DESK`; there are no "few other" such edges. -/
theorem C6_only_one_behaviorless_edge :
    edgesWithoutBehavior =
      [("ITEM_IN_TRANSIT_FOR_PICKUP", { dest := "ITEM_AT_DESK" })] := rfl

/-- C6 (amended): the single edge without a transition behavior object is
`ITEM_IN_TRANSIT_FOR_PICKUP -> ITEM_AT_DESK`; an edge without a behavior
uses the minimal default (guard always passes, effect mutates nothing), so
this automatic edge always fires and changes only the state field. -/
theorem C6_default_behavior :
    edgesWithoutBehavior =
      [("ITEM_IN_TRANSIT_FOR_PICKUP", { dest := "ITEM_AT_DESK" })] ∧
    (∀ (ctx : Ctx) (l : Loan),
      guardOf ctx none l = true ∧ effectOf ctx none l = l) ∧
    ∀ (ctx : Ctx) (l : Loan), l.state = "ITEM_IN_TRANSIT_FOR_PICKUP" →
      resolve ctx l none = .ok { l with state := "ITEM_AT_DESK" } := by
  refine ⟨rfl, fun ctx l => ⟨rfl, rfl⟩, ?_⟩
  intro ctx l h
  have hc : filterByTrigger (edgesOf l.state) none =
      [{ dest := "ITEM_AT_DESK" }] := by rw [h]; rfl
  exact resolve_head_pass hc rfl

/-- C6 witness: the sample loan in transit for pickup advances to
`ITEM_AT_DESK` with no other field touched. -/
theorem C6_default_behavior_witness :
    resolve ctx0 loanInTransitPickup none =
      .ok { loanInTransitPickup with state := "ITEM_AT_DESK" } :=
  C6_default_behavior.2.2 ctx0 loanInTransitPickup rfl

/-- C7: the default policy bundle supplies exactly the seven recognized
options of the policy contract, in dict order, and sets
`extension.from_end_date` to `true`. -/
theorem C7_policy_bundle_exact :
    policyKeys = recognizedPolicyOptions ∧
    lookupPolicy "extension" "from_end_date" = some (.bool true) :=
  ⟨rfl, rfl⟩

/-- C8: the four state-classification lists are pairwise disjoint and
together cover every state of the default table except the initial state
`CREATED`, which belongs to none of them. -/
theorem C8_classification_partition :
    (∀ s ∈ CIRCULATION_STATES_LOAN_REQUEST,
      s ∉ CIRCULATION_STATES_LOAN_ACTIVE ∧
      s ∉ CIRCULATION_STATES_LOAN_COMPLETED ∧
      s ∉ CIRCULATION_STATES_LOAN_CANCELLED) ∧
    (∀ s ∈ CIRCULATION_STATES_LOAN_ACTIVE,
      s ∉ CIRCULATION_STATES_LOAN_COMPLETED ∧
      s ∉ CIRCULATION_STATES_LOAN_CANCELLED) ∧
    (∀ s ∈ CIRCULATION_STATES_LOAN_COMPLETED,
      s ∉ CIRCULATION_STATES_LOAN_CANCELLED) ∧
    (∀ s ∈ loanStates, s = "CREATED" ∨ s ∈ classificationStates) ∧
    (∀ s ∈ classificationStates, s ∈ loanStates) ∧
    "CREATED" ∈ loanStates ∧ "CREATED" ∉ classificationStates := by
  decide

/-- C8 witness: the classification facts applied at the concrete state
`ITEM_ON_LOAN`. -/
theorem C8_classification_partition_witness :
    "ITEM_ON_LOAN" ∉ CIRCULATION_STATES_LOAN_COMPLETED ∧
    "ITEM_ON_LOAN" ∉ CIRCULATION_STATES_LOAN_CANCELLED :=
  C8_classification_partition.2.1 "ITEM_ON_LOAN" (by decide)

/-- C10: in every state's candidate list all automatic edges precede all
trigger-tagged edges, and filtering a candidate list by a trigger (or by
the absence of one) yields a sublist, hence never reorders the surviving
edges. -/
theorem C10_automatic_edges_first :
    CIRCULATION_LOAN_TRANSITIONS.all
      (fun p => autoBeforeTriggered p.2) = true ∧
    ∀ (es : List Edge) (t : Option String),
      (filterByTrigger es t).Sublist es := by
  refine ⟨rfl, ?_⟩
  intro es t
  cases t <;> exact List.filter_sublist es

/-- C10 witness: the automatic-edge filter of the `PENDING` candidate list
is a sublist of that list. -/
theorem C10_automatic_edges_first_witness :
    (filterByTrigger (edgesOf "PENDING") none).Sublist (edgesOf "PENDING") :=
  C10_automatic_edges_first.2 (edgesOf "PENDING") none

/-- C3: candidates are evaluated in table order and the first passing
guard is committed: in the default table the automatic edge `PENDING ->
ITEM_AT_DESK` is listed before `PENDING -> ITEM_IN_TRANSIT_FOR_PICKUP` and
`ITEM_ON_LOAN -> ITEM_RETURNED` before `ITEM_ON_LOAN ->
ITEM_IN_TRANSIT_TO_HOUSE`, so when the guards of both edges of a pair
pass, the first-listed destination is the one committed. -/
theorem C3_first_match_priority (ctx : Ctx) (l : Loan) :
    (edgesOf "PENDING" =
      [ { dest := "ITEM_AT_DESK", transition := some "PendingToItemAtDesk" },
        { dest := "ITEM_IN_TRANSIT_FOR_PICKUP",
          transition := some "PendingToItemInTransitPickup" },
        { dest := "ITEM_ON_LOAN", trigger := some "checkout",
          transition := some "ToItemOnLoan" },
        { dest := "CANCELLED", trigger := some "cancel",
          transition := some "ToCancelled" } ]) ∧
    (l.state = "PENDING" →
      guardOf ctx (some "PendingToItemAtDesk") l = true →
      guardOf ctx (some "PendingToItemInTransitPickup") l = true →
      resolve ctx l none =
        .ok { effectOf ctx (some "PendingToItemAtDesk") l with
              state := "ITEM_AT_DESK" }) ∧
    (l.state = "ITEM_ON_LOAN" →
      guardOf ctx (some "ItemOnLoanToItemReturned") l = true →
      guardOf ctx (some "ItemOnLoanToItemInTransitHouse") l = true →
      resolve ctx l none =
        .ok { effectOf ctx (some "ItemOnLoanToItemReturned") l with
              state := "ITEM_RETURNED" }) := by
  refine ⟨rfl, ?_, ?_⟩
  · intro h hg1 _hg2
    have hc : filterByTrigger (edgesOf l.state) none =
        [ { dest := "ITEM_AT_DESK",
            transition := some "PendingToItemAtDesk" },
          { dest := "ITEM_IN_TRANSIT_FOR_PICKUP",
            transition := some "PendingToItemInTransitPickup" } ] := by
      rw [h]; rfl
    exact resolve_head_pass hc hg1
  · intro h hg1 _hg2
    have hc : filterByTrigger (edgesOf l.state) none =
        [ { dest := "ITEM_RETURNED",
            transition := some "ItemOnLoanToItemReturned" },
          { dest := "ITEM_IN_TRANSIT_TO_HOUSE",
            transition := some "ItemOnLoanToItemInTransitHouse" } ] := by
      rw [h]; rfl
    exact resolve_head_pass hc hg1

/-- C3 witness: in `ctx0` both automatic guards of `PENDING` pass and the
loan is committed to the first-listed destination `ITEM_AT_DESK`. -/
theorem C3_first_match_priority_witness :
    guardOf ctx0 (some "PendingToItemAtDesk") loanPending = true ∧
    guardOf ctx0 (some "PendingToItemInTransitPickup") loanPending = true ∧
    resolve ctx0 loanPending none =
      .ok { effectOf ctx0 (some "PendingToItemAtDesk") loanPending with
            state := "ITEM_AT_DESK" } :=
  ⟨rfl, rfl, (C3_first_match_priority ctx0 loanPending).2.1 rfl rfl rfl⟩

/-- C2: a successful `extend` on a loan in `ITEM_ON_LOAN` requires
`extension_count < extension.max_count(loan)` and increments the counter by
one (hence the counter never exceeds the bound), and once the counter has
reached the bound the next `extend` attempt fails with
`TransitionConditionsNotMet`; a failing resolution returns only an error,
so it leaves `extension_count` and `end_date` unchanged. -/
theorem C2_extension_bound (ctx : Ctx) (l : Loan)
    (h : l.state = "ITEM_ON_LOAN") :
    (∀ l', resolve ctx l (some "extend") = .ok l' →
      l'.extension_count = l.extension_count + 1 ∧
      l'.end_date = some (ctx.extensionNewEndDate l) ∧
      l.extension_count < ctx.extensionMaxCount l ∧
      l'.extension_count ≤ ctx.extensionMaxCount l) ∧
    (ctx.extensionMaxCount l ≤ l.extension_count →
      resolve ctx l (some "extend") =
        .error TransitionError.transitionConditionsNotMet) := by
  have hc : filterByTrigger (edgesOf l.state) (some "extend") =
      [ { dest := "ITEM_ON_LOAN", trigger := some "extend",
          transition := some "ItemOnLoanToItemOnLoan" } ] := by
    rw [h]; rfl
  constructor
  · intro l' hok
    obtain ⟨e, hmem, hg, hl'⟩ := resolve_ok_elim hok
    rw [hc] at hmem
    have he : e = { dest := "ITEM_ON_LOAN",
                    trigger := some "extend",
                    transition := some "ItemOnLoanToItemOnLoan" } := by
      simpa using hmem
    subst he
    simp only [guardOf, Bool.and_eq_true, decide_eq_true_eq] at hg
    have hlt : l.extension_count < ctx.extensionMaxCount l := hg.1.1
    subst hl'
    refine ⟨rfl, rfl, hlt, ?_⟩
    simpa [effectOf] using hlt
  · intro hmax
    have hguard : guardOf ctx (some "ItemOnLoanToItemOnLoan") l = false := by
      simp only [guardOf, Bool.and_eq_false_iff]
      left; left
      simpa using Nat.not_lt.mpr hmax
    apply resolve_none_pass
    · rw [hc]; simp
    · rw [hc]; simp [firstPassing, hguard]

/-- C2 witness: with the extension limit at zero, the sample on-loan
record's `extend` attempt fails with `TransitionConditionsNotMet`. -/
theorem C2_extension_bound_witness :
    resolve ctxZero loanOnLoan (some "extend") =
      .error TransitionError.transitionConditionsNotMet :=
  (C2_extension_bound ctxZero loanOnLoan rfl).2 (Nat.zero_le _)

/-- C5: a loan taken along `CREATED --request--> PENDING --cancel-->
CANCELLED` ends in `CANCELLED`, a state with no outgoing edges, so
`AvailableTriggers` on the resulting loan is empty and every further
transition attempt fails. -/
theorem C5_request_cancel_round_trip (ctx : Ctx) (l l1 l2 : Loan)
    (h0 : l.state = "CREATED")
    (h1 : resolve ctx l (some "request") = .ok l1)
    (h2 : resolve ctx l1 (some "cancel") = .ok l2) :
    l1.state = "PENDING" ∧ l2.state = "CANCELLED" ∧
    edgesOf l2.state = [] ∧ availableTriggers ctx l2 = [] ∧
    ∀ t, resolve ctx l2 t = .error (noEdgeError t) := by
  obtain ⟨e, hmem, _, hl1⟩ := resolve_ok_elim h1
  rw [h0] at hmem
  have hc1 : filterByTrigger (edgesOf "CREATED") (some "request") =
      [ { dest := "PENDING", trigger := some "request",
          transition := some "CreatedToPending" } ] := rfl
  rw [hc1] at hmem
  have he : e = { dest := "PENDING",
                  trigger := some "request",
                  transition := some "CreatedToPending" } := by
    simpa using hmem
  subst he
  have hs1 : l1.state = "PENDING" := by rw [hl1]
  obtain ⟨e2, hmem2, _, hl2⟩ := resolve_ok_elim h2
  rw [hs1] at hmem2
  have hc2 : filterByTrigger (edgesOf "PENDING") (some "cancel") =
      [ { dest := "CANCELLED", trigger := some "cancel",
          transition := some "ToCancelled" } ] := rfl
  rw [hc2] at hmem2
  have he2 : e2 = { dest := "CANCELLED",
                    trigger := some "cancel",
                    transition := some "ToCancelled" } := by
    simpa using hmem2
  subst he2
  have hs2 : l2.state = "CANCELLED" := by rw [hl2]
  have hedges : edgesOf l2.state = [] := by rw [hs2]; rfl
  refine ⟨hs1, hs2, hedges, ?_, fun t => resolve_no_edges hedges⟩
  simp [availableTriggers, hedges]

/-- C5 witness: the sample created loan after `request` then `cancel` has
no available triggers. -/
theorem C5_request_cancel_round_trip_witness :
    availableTriggers ctx0
      { loanCreated with
        state := "CANCELLED",
        transaction_date := some 5,
        pickup_location_pid := some "loc-pickup" } = [] :=
  (C5_request_cancel_round_trip ctx0 loanCreated
    { loanCreated with
      state := "PENDING",
      transaction_date := some 5,
      pickup_location_pid := some "loc-pickup" }
    { loanCreated with
      state := "CANCELLED",
      transaction_date := some 5,
      pickup_location_pid := some "loc-pickup" }
    rfl rfl rfl).2.2.2.1

/-- C9: the `extend` trigger appears on exactly one edge of the default
table, a self-loop on `ITEM_ON_LOAN`, so every successful `extend`
resolution commits the state `ITEM_ON_LOAN`, leaving the loan's state
unchanged. -/
theorem C9_extend_self_loop :
    edgesWithTrigger "extend" =
      [ ("ITEM_ON_LOAN",
         { dest := "ITEM_ON_LOAN", trigger := some "extend",
           transition := some "ItemOnLoanToItemOnLoan" }) ] ∧
    ∀ (ctx : Ctx) (l l' : Loan),
      resolve ctx l (some "extend") = .ok l' → l'.state = "ITEM_ON_LOAN" := by
  refine ⟨rfl, ?_⟩
  intro ctx l l' hok
  obtain ⟨e, hmem, _, hl'⟩ := resolve_ok_elim hok
  have htr : e.trigger = some "extend" := trigger_of_mem_filterByTrigger hmem
  have hedge : e ∈ edgesOf l.state := mem_of_mem_filterByTrigger hmem
  obtain ⟨p, hp, he⟩ := mem_edgesOf hedge
  have hall : CIRCULATION_LOAN_TRANSITIONS.all
      (fun p => p.2.all
        (fun e => !(e.trigger == some "extend") ||
          e.dest == "ITEM_ON_LOAN")) = true := rfl
  have h1 := List.all_eq_true.mp (List.all_eq_true.mp hall p hp) e he
  rw [htr] at h1
  simp at h1
  rw [hl']
  simpa using h1

/-- C9 witness: a successful `extend` in `ctx0` keeps the sample loan in
state `ITEM_ON_LOAN`. -/
theorem C9_extend_self_loop_witness :
    resolve ctx0 loanOnLoan (some "extend") =
      .ok { loanOnLoan with
            state := "ITEM_ON_LOAN",
            extension_count := 1,
            end_date := some 22 } ∧
    ({ loanOnLoan with
       state := "ITEM_ON_LOAN",
       extension_count := 1,
       end_date := some 22 } : Loan).state = "ITEM_ON_LOAN" :=
  ⟨rfl, C9_extend_self_loop.2 ctx0 loanOnLoan _ rfl⟩

end InvenioCirculation
